import Mathlib

/-!
Verification of the SSD1306 OLED driver core (`src/microbit/ssd1306.py`)
against its natural-language specification.

The driver is embedded shallowly: the driver object becomes a record, each
method becomes a pure function returning the (possibly updated) state together
with the list of transport writes it performs, and Python integers become
`Int` (so that expressions such as `height - 1` keep Python semantics even
for small heights).  A command write of one byte is `Write.cmd b`; a bulk
data write of the framebuffer is `Write.data bs`.
-/

/-- A single transport operation performed by the driver: either a one-byte
command write (`write_cmd`) or a bulk data write (`write_data`). -/
inductive Write where
  | cmd (b : Int)
  | data (bs : List Nat)
deriving DecidableEq, Repr

/-- Whether a transport operation is a data write. -/
def Write.isData : Write → Bool
  | Write.cmd _ => false
  | Write.data _ => true

-- register definitions, as in the source
def SET_CONTRAST : Int := 0x81
def SET_ENTIRE_ON : Int := 0xa4
def SET_NORM_INV : Int := 0xa6
def SET_DISP : Int := 0xae
def SET_MEM_ADDR : Int := 0x20
def SET_COL_ADDR : Int := 0x21
def SET_PAGE_ADDR : Int := 0x22
def SET_DISP_START_LINE : Int := 0x40
def SET_SEG_REMAP : Int := 0xa0
def SET_MUX_RATIO : Int := 0xa8
def SET_COM_OUT_DIR : Int := 0xc0
def SET_DISP_OFFSET : Int := 0xd3
def SET_COM_PIN_CFG : Int := 0xda
def SET_DISP_CLK_DIV : Int := 0xd5
def SET_PRECHARGE : Int := 0xd9
def SET_VCOM_DESEL : Int := 0xdb
def SET_CHARGE_PUMP : Int := 0x8d

/-- The state of an `SSD1306` driver instance: the fields assigned in
`SSD1306.__init__` (the `framebuf.FrameBuffer` view is represented by the
underlying byte buffer itself). -/
structure SSD1306 where
  width : Nat
  height : Nat
  external_vcc : Bool
  pages : Nat
  buffer : List Nat
deriving DecidableEq, Repr

/-- The flat tuple of command bytes iterated over in `SSD1306.init_display`,
in source order. -/
def initCmds (height : Nat) (external_vcc : Bool) : List Int :=
  [ Int.lor SET_DISP 0x00,                       -- off
    SET_MEM_ADDR, 0x00,                          -- horizontal
    Int.lor SET_DISP_START_LINE 0x00,
    Int.lor SET_SEG_REMAP 0x01,                  -- column addr 127 mapped to SEG0
    SET_MUX_RATIO, (height : Int) - 1,
    Int.lor SET_COM_OUT_DIR 0x08,                -- scan from COM[N] to COM0
    SET_DISP_OFFSET, 0x00,
    SET_COM_PIN_CFG, if height = 32 then 0x02 else 0x12,
    SET_DISP_CLK_DIV, 0x80,
    SET_PRECHARGE, if external_vcc then 0x22 else 0xf1,
    SET_VCOM_DESEL, 0x30,                        -- 0.83*Vcc
    SET_CONTRAST, 0xff,                          -- maximum
    SET_ENTIRE_ON,                               -- output follows RAM contents
    SET_NORM_INV,                                -- not inverted
    SET_CHARGE_PUMP, if external_vcc then 0x10 else 0x14,
    Int.lor SET_DISP 0x01 ]                      -- on

/-- `framebuf.FrameBuffer.fill(v)`: every byte of the buffer is set to `v`
(the driver only ever calls it with 0, for which the byte value is 0). -/
def SSD1306.fill (s : SSD1306) (v : Nat) : SSD1306 :=
  { s with buffer := s.buffer.map (fun _ => v) }

/-- `SSD1306.show`: the column window (shifted by 32 when `width == 64`),
the page window, and the single bulk transfer of the framebuffer. -/
def SSD1306.show (s : SSD1306) : SSD1306 × List Write :=
  let x0 : Int := 0
  let x1 : Int := (s.width : Int) - 1
  let x0 : Int := if s.width = 64 then x0 + 32 else x0
  let x1 : Int := if s.width = 64 then x1 + 32 else x1
  (s, [ Write.cmd SET_COL_ADDR, Write.cmd x0, Write.cmd x1,
        Write.cmd SET_PAGE_ADDR, Write.cmd 0, Write.cmd ((s.pages : Int) - 1),
        Write.data s.buffer ])

/-- `SSD1306.init_display`: write every byte of `initCmds` as a command,
clear the framebuffer, and push it with `show`. -/
def SSD1306.init_display (s : SSD1306) : SSD1306 × List Write :=
  let cmdW := (initCmds s.height s.external_vcc).map Write.cmd
  let s1 := s.fill 0
  let p := s1.show
  (p.1, cmdW ++ p.2)

/-- `SSD1306.__init__` with a transport that never fails: set up geometry and
the framebuffer, then run `init_display`.  Returns the constructed state and
the full trace of transport writes performed during construction. -/
def SSD1306.new (width height : Nat) (external_vcc : Bool) : SSD1306 × List Write :=
  let pages := height / 8
  let s : SSD1306 :=
    { width := width, height := height, external_vcc := external_vcc,
      pages := pages, buffer := List.replicate (pages * width) 0 }
  s.init_display

/-- The only error the source can raise during construction: a failed
transport write (modelled; the Python exception type is the transport layer
choice). -/
inductive DriverError where
  | transportFailure
deriving DecidableEq, Repr

/-- Execute a list of intended transport writes against a transport that
fails on the write with index `failAt` (if any).  Returns the writes actually
attempted (the failing attempt included) and whether all succeeded. -/
def runWrites : Option Nat → List Write → List Write × Bool
  | _, [] => ([], true)
  | none, w :: ws =>
    let p := runWrites none ws
    (w :: p.1, p.2)
  | some 0, w :: _ => ([w], false)
  | some (k + 1), w :: ws =>
    let p := runWrites (some k) ws
    (w :: p.1, p.2)

/-- `SSD1306.__init__` over a possibly failing transport: the construction
either completes with the constructed state, or aborts at the failing write
with the exception propagating to the caller. -/
def SSD1306.mkE (width height : Nat) (external_vcc : Bool) (failAt : Option Nat) :
    List Write × Except DriverError SSD1306 :=
  let p := SSD1306.new width height external_vcc
  let r := runWrites failAt p.2
  (r.1, if r.2 then Except.ok p.1 else Except.error DriverError.transportFailure)

/-- `SSD1306.poweroff`. -/
def SSD1306.poweroff (s : SSD1306) : SSD1306 × List Write :=
  (s, [Write.cmd (Int.lor SET_DISP 0x00)])

/-- `SSD1306.poweron`. -/
def SSD1306.poweron (s : SSD1306) : SSD1306 × List Write :=
  (s, [Write.cmd (Int.lor SET_DISP 0x01)])

/-- `SSD1306.contrast`. -/
def SSD1306.contrast (s : SSD1306) (level : Int) : SSD1306 × List Write :=
  (s, [Write.cmd SET_CONTRAST, Write.cmd level])

/-- `SSD1306.invert` (`invert & 1` maps the boolean to 0 or 1). -/
def SSD1306.invert (s : SSD1306) (invert : Bool) : SSD1306 × List Write :=
  (s, [Write.cmd (Int.lor SET_NORM_INV (if invert then 1 else 0))])

/-- One runtime operation of the driver, for reasoning about arbitrary
operation sequences. -/
inductive Op where
  | poweroff
  | poweron
  | contrast (level : Int)
  | invert (b : Bool)
  | show
deriving DecidableEq, Repr

/-- Apply one runtime operation. -/
def applyOp (s : SSD1306) : Op → SSD1306 × List Write
  | Op.poweroff => s.poweroff
  | Op.poweron => s.poweron
  | Op.contrast level => s.contrast level
  | Op.invert b => s.invert b
  | Op.show => s.show

/-- Apply a sequence of runtime operations, keeping only the state. -/
def applyOps (s : SSD1306) (ops : List Op) : SSD1306 :=
  ops.foldl (fun t o => (applyOp t o).1) s

-- The I2C transport subclass.

/-- One I2C bus message: target address and payload bytes. -/
structure I2CMsg where
  addr : Nat
  bytes : List Int
deriving DecidableEq, Repr

/-- Default bus address of `SSD1306_I2C`. -/
def I2C_DEFAULT_ADDR : Nat := 0x3c

/-- `SSD1306_I2C.write_cmd`: the control byte `0x80` (Co=1, D/C#=0) followed
by the command byte, in one message to the configured address. -/
def i2c_write_cmd (addr : Nat) (c : Int) : I2CMsg :=
  { addr := addr, bytes := [0x80, c] }

/-- `SSD1306_I2C.write_data`: one message holding the control byte `0x40`
followed by the unmodified buffer bytes. -/
def i2c_write_data (addr : Nat) (buf : List Nat) : I2CMsg :=
  { addr := addr, bytes := 0x40 :: buf.map Int.ofNat }

/-- How `SSD1306_I2C` delivers each abstract transport write on the bus. -/
def lowerWrite (addr : Nat) : Write → I2CMsg
  | Write.cmd c => i2c_write_cmd addr c
  | Write.data bs => i2c_write_data addr bs

-- Helper lemmas.

theorem runWrites_none (ws : List Write) : runWrites none ws = (ws, true) := by
  induction ws with
  | nil => rfl
  | cons w ws ih => simp [runWrites, ih]

theorem runWrites_some (ws : List Write) (k : Nat) (hk : k < ws.length) :
    runWrites (some k) ws = (ws.take (k + 1), false) := by
  induction ws generalizing k with
  | nil => simp at hk
  | cons w ws ih =>
    cases k with
    | zero => rfl
    | succ k =>
      have hk' : k < ws.length := by simpa using hk
      simp [runWrites, ih k hk']

theorem applyOp_fst (s : SSD1306) (o : Op) : (applyOp s o).1 = s := by
  cases o <;> rfl

theorem applyOps_eq (s : SSD1306) (ops : List Op) : applyOps s ops = s := by
  induction ops generalizing s with
  | nil => rfl
  | cons o ops ih =>
    simp [applyOps] at ih ⊢
    rw [applyOp_fst, ih]

theorem mk_trace (w h : Nat) (ev : Bool) :
    (SSD1306.new w h ev).2
      = (initCmds h ev).map Write.cmd ++ ((SSD1306.new w h ev).1.show).2 := rfl

/-- The 16-entry initialization sequence from the specification, each entry a
command byte followed by its operand bytes (spec-side definition, compared
against the trace the source code produces). -/
def specInitSequence (height : Nat) (external_vcc : Bool) : List (List Int) :=
  [ [0xae],
    [0x20, 0x00],
    [0x40],
    [0xa1],
    [0xa8, (height : Int) - 1],
    [0xc8],
    [0xd3, 0x00],
    [0xda, if height = 32 then 0x02 else 0x12],
    [0xd5, 0x80],
    [0xd9, if external_vcc then 0x22 else 0xf1],
    [0xdb, 0x30],
    [0x81, 0xff],
    [0xa4],
    [0xa6],
    [0x8d, if external_vcc then 0x10 else 0x14],
    [0xaf] ]

/-- C1: construction performs a fixed ordered sequence of 16 command writes
(25 command bytes), byte-for-byte as listed in the claim, as the first
transport writes of construction, for every width, height and external_vcc. -/
theorem init_display_sequence (w h : Nat) (ev : Bool) :
    (specInitSequence h ev).length = 16 ∧
    (SSD1306.new w h ev).2.take 25
      = ((specInitSequence h ev).flatten).map Write.cmd := by
  refine ⟨rfl, ?_⟩
  have e1 : Int.lor (0xae : Int) 0x00 = 0xae := by decide
  have e2 : Int.lor (0x40 : Int) 0x00 = 0x40 := by decide
  have e3 : Int.lor (0xa0 : Int) 0x01 = 0xa1 := by decide
  have e4 : Int.lor (0xc0 : Int) 0x08 = 0xc8 := by decide
  have e5 : Int.lor (0xae : Int) 0x01 = 0xaf := by decide
  rw [mk_trace, List.take_append_of_le_length (by simp [initCmds]),
    List.take_of_length_le (by simp [initCmds])]
  simp [initCmds, specInitSequence, SET_DISP, SET_MEM_ADDR, SET_DISP_START_LINE,
    SET_SEG_REMAP, SET_MUX_RATIO, SET_COM_OUT_DIR, SET_DISP_OFFSET,
    SET_COM_PIN_CFG, SET_DISP_CLK_DIV, SET_PRECHARGE, SET_VCOM_DESEL,
    SET_CONTRAST, SET_ENTIRE_ON, SET_NORM_INV, SET_CHARGE_PUMP,
    e1, e2, e3, e4, e5]

/-- C3: `show` sets the column window to `[32, 95]` when the width is 64, to
`[0, 127]` when the width is 128, and to `[0, width - 1]` otherwise. -/
theorem show_column_window (s : SSD1306) :
    (s.width = 64 → (SSD1306.show s).2.take 3
        = [Write.cmd 0x21, Write.cmd 32, Write.cmd 95]) ∧
    (s.width = 128 → (SSD1306.show s).2.take 3
        = [Write.cmd 0x21, Write.cmd 0, Write.cmd 127]) ∧
    (s.width ≠ 64 → s.width ≠ 128 → (SSD1306.show s).2.take 3
        = [Write.cmd 0x21, Write.cmd 0, Write.cmd ((s.width : Int) - 1)]) := by
  refine ⟨fun hw => ?_, fun hw => ?_, fun hw _ => ?_⟩ <;>
    simp [SSD1306.show, SET_COL_ADDR, hw]

/-- Witness for C3 at a concrete 64-wide driver. -/
theorem show_column_window_witness :
    ((SSD1306.new 64 32 false).1.width = 64) ∧
    (SSD1306.show (SSD1306.new 64 32 false).1).2.take 3
      = [Write.cmd 0x21, Write.cmd 32, Write.cmd 95] :=
  ⟨rfl, (show_column_window (SSD1306.new 64 32 false).1).1 rfl⟩

/-- C4: `show` sets the page window to `[0, pages - 1]` right after the three
column-address bytes, then performs exactly one bulk data write, whose payload
is the entire framebuffer; no other data write occurs in the trace. -/
theorem show_page_window_and_data (s : SSD1306) :
    (SSD1306.show s).2.drop 3
      = [Write.cmd 0x22, Write.cmd 0, Write.cmd ((s.pages : Int) - 1),
         Write.data s.buffer] ∧
    (SSD1306.show s).2.filter Write.isData = [Write.data s.buffer] := by
  constructor <;> rfl

/-- C7: `invert true` issues exactly one command write, the byte
`0xa6 ||| 1 = 0xa7`; `invert false` issues exactly one command write of the
unmodified base byte `0xa6`. -/
theorem invert_single_command (s : SSD1306) :
    (SSD1306.invert s true).2 = [Write.cmd (Int.lor 0xa6 1)] ∧
    Int.lor (0xa6 : Int) 1 = 0xa7 ∧
    (SSD1306.invert s false).2 = [Write.cmd 0xa6] := by
  refine ⟨rfl, by decide, ?_⟩
  have : Int.lor (0xa6 : Int) 0 = 0xa6 := by decide
  simp [SSD1306.invert, SET_NORM_INV, this]

/-- C2 counterexample: with `height = 1` (not a multiple of 8) construction
does not fail — it returns a driver with `pages = 0` and an empty buffer —
and it issues 32 transport writes, not zero. -/
theorem construction_invalid_height_cex :
    (1 : Nat) % 8 ≠ 0 ∧
    (SSD1306.mkE 1 1 false none).2
      = Except.ok { width := 1, height := 1, external_vcc := false,
                    pages := 0, buffer := [] } ∧
    (SSD1306.mkE 1 1 false none).1.length = 32 := by
  refine ⟨by decide, ?_, ?_⟩ <;> rfl

/-- C2 amended: construction performs no geometry validation at all — for
every width and every height with `height % 8 ≠ 0`, construction succeeds
(over a healthy transport) and does issue transport writes; `pages` is
silently truncated to `height / 8`. -/
theorem construction_no_geometry_validation (w h : Nat) (ev : Bool)
    (hh : h % 8 ≠ 0) :
    (SSD1306.mkE w h ev none).2 = Except.ok (SSD1306.new w h ev).1 ∧
    (SSD1306.mkE w h ev none).1 ≠ [] := by
  have hne : (SSD1306.new w h ev).2 ≠ [] := by
    rw [mk_trace]
    simp [initCmds]
  constructor
  · simp [SSD1306.mkE, runWrites_none]
  · simpa [SSD1306.mkE, runWrites_none] using hne

/-- Witness for the amended C2 at `width = 1`, `height = 1`. -/
theorem construction_no_geometry_validation_witness :
    (1 : Nat) % 8 ≠ 0 ∧
    ((SSD1306.mkE 1 1 false none).2 = Except.ok (SSD1306.new 1 1 false).1 ∧
     (SSD1306.mkE 1 1 false none).1 ≠ []) :=
  ⟨by decide, construction_no_geometry_validation 1 1 false (by decide)⟩

/-- C5: if the transport fails on command write `k` of the initialization
sequence (`k < 25`), construction propagates the error (no driver instance is
delivered) and the attempted writes are exactly the first `k + 1` command
bytes of the sequence — nothing is written after the failing one. -/
theorem init_transport_failure_aborts (w h : Nat) (ev : Bool) (k : Nat)
    (hk : k < 25) :
    (SSD1306.mkE w h ev (some k)).2 = Except.error DriverError.transportFailure ∧
    (SSD1306.mkE w h ev (some k)).1 = ((initCmds h ev).take (k + 1)).map Write.cmd := by
  have hlen : (SSD1306.new w h ev).2.length = 32 := by
    rw [mk_trace]
    simp [initCmds, SSD1306.show]
  have hrun := runWrites_some ((SSD1306.new w h ev).2) k (by omega)
  constructor
  · simp [SSD1306.mkE, hrun]
  · rw [show (SSD1306.mkE w h ev (some k)).1 = (SSD1306.new w h ev).2.take (k + 1) by
      simp [SSD1306.mkE, hrun]]
    rw [mk_trace, List.take_append_of_le_length (by simp [initCmds]; omega),
      List.map_take]

/-- Witness for C5: failure on the very first command write. -/
theorem init_transport_failure_aborts_witness :
    (0 : Nat) < 25 ∧
    ((SSD1306.mkE 128 64 false (some 0)).2 = Except.error DriverError.transportFailure ∧
     (SSD1306.mkE 128 64 false (some 0)).1 = ((initCmds 64 false).take 1).map Write.cmd) :=
  ⟨by decide, init_transport_failure_aborts 128 64 false 0 (by decide)⟩

/-- C6: for every valid geometry, after construction `pages = height / 8` and
the framebuffer length is `width * pages`, and both are preserved by every
sequence of runtime operations. -/
theorem geometry_invariant (w h : Nat) (ev : Bool) (ops : List Op)
    (hh : h % 8 = 0) :
    (applyOps (SSD1306.new w h ev).1 ops).pages = h / 8 ∧
    (applyOps (SSD1306.new w h ev).1 ops).buffer.length
      = w * (applyOps (SSD1306.new w h ev).1 ops).pages := by
  rw [applyOps_eq]
  refine ⟨rfl, ?_⟩
  simp [SSD1306.new, SSD1306.init_display, SSD1306.fill, SSD1306.show,
    Nat.mul_comm]

/-- Witness for C6 on a 128x64 panel with a two-operation history. -/
theorem geometry_invariant_witness :
    (64 : Nat) % 8 = 0 ∧
    ((applyOps (SSD1306.new 128 64 false).1 [Op.poweroff, Op.show]).pages = 64 / 8 ∧
     (applyOps (SSD1306.new 128 64 false).1 [Op.poweroff, Op.show]).buffer.length
       = 128 * (applyOps (SSD1306.new 128 64 false).1 [Op.poweroff, Op.show]).pages) :=
  ⟨rfl, geometry_invariant 128 64 false [Op.poweroff, Op.show] rfl⟩

/-- C8: for every byte-valued level, `contrast` writes exactly the command
byte `0x81` followed by the unmodified level, and nothing else. -/
theorem contrast_two_bytes (s : SSD1306) (level : Int)
    (h0 : 0 ≤ level) (h1 : level ≤ 255) :
    (SSD1306.contrast s level).2 = [Write.cmd 0x81, Write.cmd level] := rfl

/-- Witness for C8 at the extreme level 255. -/
theorem contrast_two_bytes_witness :
    ((0 : Int) ≤ 255 ∧ (255 : Int) ≤ 255) ∧
    (SSD1306.contrast (SSD1306.new 128 64 false).1 255).2
      = [Write.cmd 0x81, Write.cmd 255] :=
  ⟨⟨by decide, by decide⟩,
   contrast_two_bytes (SSD1306.new 128 64 false).1 255 (by decide) (by decide)⟩

/-- C9: every runtime operation leaves every component of the driver state —
width, height, pages, external_vcc and the framebuffer bytes — unchanged;
its only effect is the transport writes it emits. -/
theorem runtime_ops_pure (s : SSD1306) (o : Op) :
    (applyOp s o).1.width = s.width ∧
    (applyOp s o).1.height = s.height ∧
    (applyOp s o).1.pages = s.pages ∧
    (applyOp s o).1.external_vcc = s.external_vcc ∧
    (applyOp s o).1.buffer = s.buffer := by
  rw [applyOp_fst]
  exact ⟨rfl, rfl, rfl, rfl, rfl⟩

/-- C10: on the I2C transport every command byte is delivered as the two-byte
message `[0x80, c]` to the configured address, every data transfer as one
message `0x40` followed by the unmodified buffer, and the default address is
`0x3c`. -/
theorem i2c_framing (addr : Nat) (c : Int) (buf : List Nat)
    (h0 : 0 ≤ c) (h1 : c ≤ 255) :
    lowerWrite addr (Write.cmd c) = { addr := addr, bytes := [0x80, c] } ∧
    lowerWrite addr (Write.data buf)
      = { addr := addr, bytes := 0x40 :: buf.map Int.ofNat } ∧
    I2C_DEFAULT_ADDR = 0x3c :=
  ⟨rfl, rfl, rfl⟩

/-- Witness for C10 at the default address with the display-off command. -/
theorem i2c_framing_witness :
    ((0 : Int) ≤ 0xae ∧ (0xae : Int) ≤ 255) ∧
    (lowerWrite 0x3c (Write.cmd 0xae) = { addr := 0x3c, bytes := [0x80, 0xae] } ∧
     lowerWrite 0x3c (Write.data [0, 255])
       = { addr := 0x3c, bytes := [0x40, 0, 255] } ∧
     I2C_DEFAULT_ADDR = 0x3c) :=
  ⟨⟨by decide, by decide⟩, i2c_framing 0x3c 0xae [0, 255] (by decide) (by decide)⟩
